import Mathlib

/-!
Verification of the resilient request pipeline of the testluy-next-demo
repository: the HMAC-SHA-256 request signer, the request construction of the
test harnesses and route handlers, the rate-limit error description, the
route-handler validation phases, and the (spec-modelled) retry pipeline of the
vendor SDK. Every definition is a shallow embedding of the JavaScript source;
bytes are naturals below 256 and 32-bit words are naturals reduced mod 2 ^ 32.
-/

set_option maxRecDepth 1000000
set_option maxHeartbeats 4000000

namespace Testluy

/-! ## Byte and word primitives -/

/-- Reduce a natural to a 32-bit word, the implicit arithmetic of the JS
crypto primitives the source delegates to. -/
def w32 (n : Nat) : Nat := n % 4294967296

/-- Rotate a 32-bit word right by the given amount. -/
def rotr (x n : Nat) : Nat := w32 ((x >>> n) ||| (x <<< (32 - n)))

def bsig0 (x : Nat) : Nat := (rotr x 2) ^^^ (rotr x 13) ^^^ (rotr x 22)

def bsig1 (x : Nat) : Nat := (rotr x 6) ^^^ (rotr x 11) ^^^ (rotr x 25)

def ssig0 (x : Nat) : Nat := (rotr x 7) ^^^ (rotr x 18) ^^^ (x >>> 3)

def ssig1 (x : Nat) : Nat := (rotr x 17) ^^^ (rotr x 19) ^^^ (x >>> 10)

def ch (x y z : Nat) : Nat := (x &&& y) ^^^ ((x ^^^ 4294967295) &&& z)

def maj (x y z : Nat) : Nat := (x &&& y) ^^^ (x &&& z) ^^^ (y &&& z)

/-- The 64 SHA-256 round constants of FIPS 180-4, written in decimal. -/
def sha256K : List Nat := [
  1116352408, 1899447441, 3049323471, 3921009573, 961987163,
  1508970993, 2453635748, 2870763221, 3624381080, 310598401,
  607225278, 1426881987, 1925078388, 2162078206, 2614888103,
  3248222580, 3835390401, 4022224774, 264347078, 604807628,
  770255983, 1249150122, 1555081692, 1996064986, 2554220882,
  2821834349, 2952996808, 3210313671, 3336571891, 3584528711,
  113926993, 338241895, 666307205, 773529912, 1294757372,
  1396182291, 1695183700, 1986661051, 2177026350, 2456956037,
  2730485921, 2820302411, 3259730800, 3345764771, 3516065817,
  3600352804, 4094571909, 275423344, 430227734, 506948616,
  659060556, 883997877, 958139571, 1322822218, 1537002063,
  1747873779, 1955562222, 2024104815, 2227730452, 2361852424,
  2428436474, 2756734187, 3204031479, 3329325298]

/-- The eight working variables of the SHA-256 compression function. -/
structure Hs where
  a : Nat
  b : Nat
  c : Nat
  d : Nat
  e : Nat
  f : Nat
  g : Nat
  h : Nat
deriving DecidableEq

/-- The initial SHA-256 hash state of FIPS 180-4, written in decimal. -/
def initHs : Hs :=
  ⟨1779033703, 3144134277, 1013904242, 2773480762,
   1359893119, 2600822924, 528734635, 1541459225⟩

/-- One SHA-256 round, consuming one round constant and one schedule word. -/
def sha256Round (s : Hs) (kw : Nat × Nat) : Hs :=
  let t1 := w32 (s.h + bsig1 s.e + ch s.e s.f s.g + kw.1 + kw.2)
  let t2 := w32 (bsig0 s.a + maj s.a s.b s.c)
  ⟨w32 (t1 + t2), s.a, s.b, s.c, w32 (s.d + t1), s.e, s.f, s.g⟩

/-- Extend the 16 block words by the given number of schedule words. -/
def schedExt : Nat → List Nat → List Nat
  | 0, acc => acc
  | n + 1, acc =>
    let l := acc.length
    let g : Nat → Nat := fun i => acc.getD i 0
    schedExt n (acc ++ [w32 (ssig1 (g (l - 2)) + g (l - 7) + ssig0 (g (l - 15)) + g (l - 16))])

/-- The 64-word SHA-256 message schedule of one block. -/
def sched (block : List Nat) : List Nat := schedExt 48 block

/-- Group big-endian bytes into 32-bit words. -/
def bytesToWords : List Nat → List Nat
  | b0 :: b1 :: b2 :: b3 :: rest => (b0 * 16777216 + b1 * 65536 + b2 * 256 + b3) :: bytesToWords rest
  | _ => []

/-- The SHA-256 compression function on one 64-byte block. -/
def compress (s : Hs) (block : List Nat) : Hs :=
  let ws := sched (bytesToWords block)
  let t := (sha256K.zip ws).foldl sha256Round s
  ⟨w32 (s.a + t.a), w32 (s.b + t.b), w32 (s.c + t.c), w32 (s.d + t.d),
   w32 (s.e + t.e), w32 (s.f + t.f), w32 (s.g + t.g), w32 (s.h + t.h)⟩

/-- Split a byte list into 64-byte blocks; the first argument is fuel, always
instantiated with the list length. -/
def blocksAux : Nat → List Nat → List (List Nat)
  | 0, _ => []
  | _, [] => []
  | n + 1, bs => bs.take 64 :: blocksAux n (bs.drop 64)

/-- SHA-256 padding: a 0x80 byte, zeros to 56 mod 64, and the bit length as
eight big-endian bytes. -/
def sha256Pad (msg : List Nat) : List Nat :=
  let l := msg.length
  let zeros := (119 - l % 64) % 64
  let bitLen := l * 8
  msg ++ [128] ++ List.replicate zeros 0 ++
    [bitLen / 72057594037927936 % 256, bitLen / 281474976710656 % 256,
     bitLen / 1099511627776 % 256, bitLen / 4294967296 % 256,
     bitLen / 16777216 % 256, bitLen / 65536 % 256, bitLen / 256 % 256, bitLen % 256]

/-- The four big-endian bytes of a 32-bit word. -/
def wordBytes (x : Nat) : List Nat := [x / 16777216 % 256, x / 65536 % 256, x / 256 % 256, x % 256]

/-- SHA-256 of a byte list, as the 32 digest bytes. This models the platform
hash behind `crypto.createHmac("sha256", ...)` (Node) and
`crypto.subtle` HMAC with hash SHA-256 (WebCrypto), which the source calls. -/
def sha256 (msg : List Nat) : List Nat :=
  let padded := sha256Pad msg
  let s := (blocksAux padded.length padded).foldl compress initHs
  wordBytes s.a ++ wordBytes s.b ++ wordBytes s.c ++ wordBytes s.d ++
  wordBytes s.e ++ wordBytes s.f ++ wordBytes s.g ++ wordBytes s.h

/-- UTF-8 encoding of one unicode scalar value, the byte reading of JS strings
performed by `TextEncoder` and by the Node hash update on strings. -/
def utf8Char (c : Char) : List Nat :=
  let n := c.toNat
  if n < 128 then [n]
  else if n < 2048 then [192 + n / 64, 128 + n % 64]
  else if n < 65536 then [224 + n / 4096, 128 + n / 64 % 64, 128 + n % 64]
  else [240 + n / 262144, 128 + n / 4096 % 64, 128 + n / 64 % 64, 128 + n % 64]

/-- Concatenated map over a list, used where JS flattens encodings. -/
def catMap (f : α → List β) : List α → List β
  | [] => []
  | a :: as => f a ++ catMap f as

/-- UTF-8 bytes of a string. -/
def utf8 (s : String) : List Nat := catMap utf8Char s.data

/-- HMAC-SHA-256 (RFC 2104): keys longer than the 64-byte block are hashed,
then zero-padded to the block size; note a zero-length key is accepted and
zero-padded like any other short key. -/
def hmacSha256 (key msg : List Nat) : List Nat :=
  let k0 := if key.length > 64 then sha256 key else key
  let k := k0 ++ List.replicate (64 - k0.length) 0
  let ip := k.map (fun b => b ^^^ 54)
  let op := k.map (fun b => b ^^^ 92)
  sha256 (op ++ sha256 (ip ++ msg))

/-- Lowercase hexadecimal digit of a nibble. -/
def hexDigit (n : Nat) : Char :=
  if n < 10 then Char.ofNat (48 + n) else Char.ofNat (87 + n)

/-- Two zero-padded lowercase hex digits of one byte, the rendering used both
by the Node digest("hex") call and by the manual
`b.toString(16).padStart(2, "0")` loop in the route handlers. -/
def byteHex (b : Nat) : List Char := [hexDigit (b / 16), hexDigit (b % 16)]

/-- Lowercase hex string of a byte list. -/
def toHex (bs : List Nat) : String := ⟨catMap byteHex bs⟩

/-- A character is a lowercase hexadecimal digit. -/
def isLowerHexDigit (c : Char) : Bool :=
  (48 ≤ c.toNat && c.toNat ≤ 57) || (97 ≤ c.toNat && c.toNat ≤ 102)

/-! ### Sanity vectors for the hash embedding -/

/-- FIPS test vector: SHA-256 of the empty message. -/
theorem sha256_empty_vector :
    toHex (sha256 []) = "e3b0c44298fc1c149afbf4c8996fb92427ae41e4649b934ca495991b7852b855" := by
  decide

/-- RFC 4231 test case 2 for HMAC-SHA-256. -/
theorem hmac_rfc4231_case2 :
    toHex (hmacSha256 (utf8 "Jefe") (utf8 "what do ya want for nothing?")) =
      "5bdcc146bf60754e6a042426089575c75a003f089d2739839dec58b964ec3843" := by
  decide

/-! ### Shape lemmas for digests and hex rendering -/

theorem wordBytes_length (x : Nat) : (wordBytes x).length = 4 := rfl

theorem wordBytes_lt (x : Nat) : ∀ b ∈ wordBytes x, b < 256 := by
  intro b hb
  simp only [wordBytes, List.mem_cons, List.not_mem_nil, or_false] at hb
  rcases hb with h | h | h | h <;> subst h <;> exact Nat.mod_lt _ (by norm_num)

/-- A SHA-256 digest is exactly 32 bytes. -/
theorem sha256_length (msg : List Nat) : (sha256 msg).length = 32 := by
  simp [sha256, wordBytes]

/-- Every SHA-256 digest byte is below 256. -/
theorem sha256_bytes_lt (msg : List Nat) : ∀ b ∈ sha256 msg, b < 256 := by
  intro b hb
  simp only [sha256, List.mem_append] at hb
  rcases hb with ((((((h | h) | h) | h) | h) | h) | h) | h <;> exact wordBytes_lt _ _ h

/-- An HMAC-SHA-256 digest is exactly 32 bytes. -/
theorem hmacSha256_length (key msg : List Nat) : (hmacSha256 key msg).length = 32 :=
  sha256_length _

/-- Every HMAC-SHA-256 digest byte is below 256. -/
theorem hmacSha256_bytes_lt (key msg : List Nat) : ∀ b ∈ hmacSha256 key msg, b < 256 :=
  sha256_bytes_lt _

theorem catMap_length_byteHex (bs : List Nat) : (catMap byteHex bs).length = 2 * bs.length := by
  induction bs with
  | nil => rfl
  | cons b rest ih => simp [catMap, byteHex, ih]; ring

/-- Hex rendering yields two characters per byte. -/
theorem toHex_length (bs : List Nat) : (toHex bs).length = 2 * bs.length := by
  simpa [toHex, String.length] using catMap_length_byteHex bs

theorem hexDigit_isLowerHex : ∀ n, n < 16 → isLowerHexDigit (hexDigit n) = true := by decide

theorem byteHex_isLowerHex (b : Nat) (hb : b < 256) :
    ∀ c ∈ byteHex b, isLowerHexDigit c = true := by
  intro c hc
  simp only [byteHex, List.mem_cons, List.not_mem_nil, or_false] at hc
  rcases hc with h | h <;> subst h
  · exact hexDigit_isLowerHex _ (by omega)
  · exact hexDigit_isLowerHex _ (Nat.mod_lt _ (by norm_num))

/-- Every character of the hex rendering of genuine bytes is a lowercase hex
digit. -/
theorem toHex_isLowerHex (bs : List Nat) (hbs : ∀ b ∈ bs, b < 256) :
    ∀ c ∈ (toHex bs).data, isLowerHexDigit c = true := by
  intro c hc
  simp only [toHex] at hc
  induction bs with
  | nil => simp [catMap] at hc
  | cons b rest ih =>
    simp only [catMap, List.mem_append] at hc
    rcases hc with h | h
    · exact byteHex_isLowerHex b (hbs b (List.mem_cons_self _ _)) c h
    · exact ih (fun x hx => hbs x (List.mem_cons_of_mem _ hx)) h

/-! ## A small model of JavaScript values

The route handlers receive JSON-parsed request bodies and JSON response
bodies, so the value space is the JSON fragment of JS values plus
`undefined` for absent fields. Numbers are modelled as exact rationals,
which agrees with IEEE doubles on every comparison the code performs. -/

inductive JsVal where
  | undefVal
  | null
  | bool (b : Bool)
  | num (q : Rat)
  | str (s : String)
  | obj (fields : List (String × JsVal))

/-- JS truthiness of a modelled value (`NaN` is unrepresentable in JSON input,
so the numeric case is exactly nonzero). -/
def JsVal.truthy : JsVal → Bool
  | .undefVal => false
  | .null => false
  | .bool b => b
  | .num q => decide (q ≠ 0)
  | .str s => decide (s ≠ "")
  | .obj _ => true

/-- Property access `v.field` on a modelled value: the first binding in an
object, `undefined` otherwise. -/
def JsVal.get (v : JsVal) (field : String) : JsVal :=
  match v with
  | .obj fields =>
    match fields.find? (fun p => p.1 = field) with
    | some p => p.2
    | none => .undefVal
  | _ => .undefVal

/-- The JS `a || b` expression on values. -/
def jsOr (a b : JsVal) : JsVal := if a.truthy then a else b

/-- The JS `a && b` expression on values. -/
def jsAnd (a b : JsVal) : JsVal := if a.truthy then b else a

/-- An optional header value as a JS value: absent headers read as
`undefined`, present ones as their string. -/
def headerVal : Option String → JsVal
  | none => .undefVal
  | some s => .str s

/-- Whitespace as stripped by `String.prototype.trim` (the ASCII classes; the
exotic unicode space code points never reach the credential fields). -/
def isJsSpace (c : Char) : Bool :=
  c = ' ' || c = '\t' || c = '\n' || c = '\r' || c.toNat = 11 || c.toNat = 12

/-- Model of the JS `.trim()` call used on credentials throughout the route
handlers. -/
def jsTrim (s : String) : String :=
  ⟨((s.data.dropWhile isJsSpace).reverse.dropWhile isJsSpace).reverse⟩

/-- JSON string escaping as performed by `JSON.stringify` (quote, backslash,
the short control escapes, and `\u00XX` for the other control characters). -/
def escChar (c : Char) : List Char :=
  if c = '"' then ['\\', '"']
  else if c = '\\' then ['\\', '\\']
  else if c.toNat = 8 then ['\\', 'b']
  else if c.toNat = 9 then ['\\', 't']
  else if c.toNat = 10 then ['\\', 'n']
  else if c.toNat = 12 then ['\\', 'f']
  else if c.toNat = 13 then ['\\', 'r']
  else if c.toNat < 32 then ['\\', 'u', '0', '0', hexDigit (c.toNat / 16), hexDigit (c.toNat % 16)]
  else [c]

/-- A JSON-quoted string literal. -/
def jsonQuote (s : String) : String := ⟨'"' :: catMap escChar s.data ++ ['"']⟩

/-- Decimal rendering of a JS number. Exact integers render with no point;
rationals with a terminating decimal expansion (every IEEE double is one)
render with the minimal number of fractional digits, matching the shortest
round-trip rendering JS uses on the simple amounts this repository sends.
The final fallback is unreachable for dyadic rationals below the tested
magnitudes. -/
def jsNumRender (q : Rat) : String :=
  if q.den = 1 then q.num.repr
  else
    match (List.range 1075).find? (fun k => (q * (10 : Rat) ^ k).den = 1) with
    | some k =>
      let n := (q * (10 : Rat) ^ k).num
      let sign := if n < 0 then "-" else ""
      let dchars := (Nat.repr n.natAbs).data
      let padded := List.replicate (k + 1 - dchars.length) '0' ++ dchars
      sign ++ ⟨padded.take (padded.length - k)⟩ ++ "." ++ ⟨padded.drop (padded.length - k)⟩
    | none => q.num.repr ++ "/" ++ q.den.repr

/-- String rendering of a value inside a JS template literal. -/
def jsDisplay : JsVal → String
  | .undefVal => "undefined"
  | .null => "null"
  | .bool b => if b then "true" else "false"
  | .num q => jsNumRender q
  | .str s => s
  | .obj _ => "[object Object]"

mutual

/-- Model of `JSON.stringify` on the modelled values. The source only ever
stringifies objects with defined scalar fields; the `undefVal` case renders as
the text that string concatenation with `undefined` produces in its one
consumer, the string-to-sign. -/
def stringify : JsVal → String
  | .undefVal => "undefined"
  | .null => "null"
  | .bool b => if b then "true" else "false"
  | .num q => jsNumRender q
  | .str s => jsonQuote s
  | .obj fs => "\x7b" ++ stringifyFields fs ++ "\x7d"

/-- Comma-separated `"key":value` renderings of object fields. -/
def stringifyFields : List (String × JsVal) → String
  | [] => ""
  | [(k, v)] => jsonQuote k ++ ":" ++ stringify v
  | (k, v) :: rest => jsonQuote k ++ ":" ++ stringify v ++ "," ++ stringifyFields rest

end

/-- Substring test, modelling `String.prototype.includes`. -/
def strContains (s pat : String) : Bool :=
  s.data.tails.any (fun t => pat.data.isPrefixOf t)

/-! ## The signer

`generateSignature` appears verbatim in tests/rate-limiting/test-rate-limiting.js
and in the Explorer PLUS variant of the same script: the string to sign is
`METHOD + "\n" + PATH + "\n" + TIMESTAMP + "\n" + BODY` where BODY is the body
itself when it is a string and `JSON.stringify(body)` otherwise, and the
signature is the lowercase hex HMAC-SHA-256 digest keyed with the secret. -/

/-- The BODY component of the string to sign:
`typeof body === "string" ? body : JSON.stringify(body)`. -/
def bodyText : JsVal → String
  | .str s => s
  | v => stringify v

/-- Embedding of `generateSignature(method, path, timestamp, body, secretKey)`
from the rate-limiting test scripts. -/
def generateSignature (method path timestamp : String) (body : JsVal) (secretKey : String) :
    String :=
  let stringToSign := method ++ "\n" ++ path ++ "\n" ++ timestamp ++ "\n" ++ bodyText body
  toHex (hmacSha256 (utf8 secretKey) (utf8 stringToSign))

/-! ## Outbound requests of the test harnesses -/

/-- The five headers every outbound API request of the repository carries. -/
structure ReqHeaders where
  xClientId : String
  xTimestamp : String
  xSignature : String
  contentType : String
  accept : String
deriving DecidableEq

/-- An outbound HTTP request as the harness and route handlers assemble it. -/
structure ApiRequest where
  method : String
  url : String
  headers : ReqHeaders
  body : Option String
deriving DecidableEq

/-- The body axios transmits for non-GET requests: strings unchanged, plain
objects through `JSON.stringify` — the same projection the signer applies. -/
def axiosBody : JsVal → String := bodyText

/-- Embedding of `makeApiRequest(path, method, body)` from the rate-limiting
test scripts: a fresh whole-second timestamp from the clock, the HMAC
signature over it, the five headers, and `data: method !== "GET" ? body :
undefined`. `nowMs` models `Date.now()`. -/
def makeApiRequest (clientId secretKey baseUrl : String) (nowMs : Nat)
    (path method : String) (body : JsVal) : ApiRequest :=
  let timestamp := Nat.repr (nowMs / 1000)
  let signature := generateSignature method path timestamp body secretKey
  { method := method
    url := baseUrl ++ "/" ++ path
    headers := ⟨clientId, timestamp, signature, "application/json", "application/json"⟩
    body := if method ≠ "GET" then some (axiosBody body) else none }

/-- The rate-limit fields the error branch of `makeApiRequest` reads from a
non-2xx response. -/
structure RespHeaders where
  limit : Option String
  remaining : Option String
  reset : Option String
  retryAfter : Option String
deriving DecidableEq

/-- The rate-limit description `makeApiRequest` attaches to a failed
response. -/
structure RateLimitInfo where
  limit : Option String
  remaining : Option String
  reset : Option String
  retryAfter : JsVal

/-- Embedding of the `rateLimitInfo` construction in the error branch of
`makeApiRequest`: the three `x-ratelimit-*` headers are copied as read, and
`retryAfter` is `headers["retry-after"] || (data && data.retry_after)`. -/
def rateLimitInfoOfError (h : RespHeaders) (data : JsVal) : RateLimitInfo :=
  { limit := h.limit
    remaining := h.remaining
    reset := h.reset
    retryAfter := jsOr (headerVal h.retryAfter) (jsAnd data (data.get "retry_after")) }

/-! ## The paragoniu direct-call blocks of the route handlers -/

/-- A request built by the direct-call blocks, keeping the string to sign next
to what goes on the wire. -/
structure DirectRequest where
  method : String
  path : String
  url : String
  timestamp : String
  bodyString : String
  stringToSign : String
  headers : ReqHeaders
  sentBody : Option String
deriving DecidableEq

/-- The request body object of the initiate-payment direct call:
`\x7b amount, callback_url: callbackUrl, ...(backUrl && \x7b back_url: backUrl \x7d) \x7d`. -/
def initiateBodyObj (amount : Rat) (callbackUrl backUrl : String) : JsVal :=
  .obj ([("amount", .num amount), ("callback_url", .str callbackUrl)] ++
    (if backUrl ≠ "" then [("back_url", .str backUrl)] else []))

/-- Embedding of the paragoniu direct-call block of the initiate-payment route
(part_005): `bodyString = JSON.stringify(body)` is interpolated into the
string to sign, the WebCrypto HMAC-SHA-256 of it keyed with the trimmed
secret is hex-rendered into `X-Signature`, and the same `bodyString` is the
fetch body. -/
def paragoniuInitiateRequest (clientId secretKey : String) (nowMs : Nat)
    (amount : Rat) (callbackUrl backUrl : String) (baseUrl : String) : DirectRequest :=
  let path := "payment-simulator/generate-url"
  let timestamp := Nat.repr (nowMs / 1000)
  let bodyString := stringify (initiateBodyObj amount callbackUrl backUrl)
  let stringToSign := "POST" ++ "\n" ++ path ++ "\n" ++ timestamp ++ "\n" ++ bodyString
  let hexSignature := toHex (hmacSha256 (utf8 (jsTrim secretKey)) (utf8 stringToSign))
  { method := "POST"
    path := path
    url := baseUrl ++ "/" ++ path
    timestamp := timestamp
    bodyString := bodyString
    stringToSign := stringToSign
    headers := ⟨jsTrim clientId, timestamp, hexSignature, "application/json", "application/json"⟩
    sentBody := some bodyString }

/-- Embedding of the paragoniu direct-call block of the validate-transaction
route: a GET whose string to sign ends in the empty BODY
(`"GET" + "\n" + path + "\n" + timestamp + "\n" + ""`) and whose fetch call
carries no body. -/
def paragoniuStatusRequest (clientId secretKey transactionId : String) (nowMs : Nat)
    (baseUrl : String) : DirectRequest :=
  let path := "payment-simulator/status/" ++ transactionId
  let timestamp := Nat.repr (nowMs / 1000)
  let stringToSign := "GET" ++ "\n" ++ path ++ "\n" ++ timestamp ++ "\n" ++ ""
  let hexSignature := toHex (hmacSha256 (utf8 (jsTrim secretKey)) (utf8 stringToSign))
  { method := "GET"
    path := path
    url := baseUrl ++ "/" ++ path
    timestamp := timestamp
    bodyString := ""
    stringToSign := stringToSign
    headers := ⟨jsTrim clientId, timestamp, hexSignature, "application/json", "application/json"⟩
    sentBody := none }

/-! ## Route handler validation phases -/

/-- The JS validity test the routes apply to each credential:
`!v || typeof v !== "string" || !v.trim()` rejects everything except a string
whose trim is nonempty. -/
def credValid : JsVal → Bool
  | .str s => decide (jsTrim s ≠ "")
  | _ => false

/-- The environment fields the initiate-payment route reads; `none` models an
unset variable. -/
structure Env where
  callbackUrl : Option String
  appUrl : Option String
  backUrl : Option String
deriving DecidableEq

/-- The JS `process.env.X || fallback` idiom: unset or empty falls through. -/
def envOr (v : Option String) (fallback : String) : String :=
  match v with
  | some s => if s ≠ "" then s else fallback
  | none => fallback

/-- The callback URL the initiate route uses:
`process.env.NEXT_PUBLIC_CALLBACK_URL || (appUrl or localhost) + "/payment-callback"`. -/
def resolvedCallbackUrl (env : Env) : String :=
  envOr env.callbackUrl (envOr env.appUrl "http://localhost:4100" ++ "/payment-callback")

/-- The back URL the initiate route uses. -/
def resolvedBackUrl (env : Env) : String :=
  envOr env.backUrl (envOr env.appUrl "http://localhost:4100" ++ "/")

/-- Outcome of the pre-network phase of the initiate-payment route: an error
response sent with no SDK constructed and no network touched, or the data the
SDK/direct-call phase proceeds with. -/
inductive InitiateOutcome where
  | error (status : Nat) (msg : String)
  | proceed (clientId secretKey : String) (amount : Rat) (callbackUrl backUrl : String)
deriving DecidableEq

/-- Embedding of the validation phase of the initiate-payment route handlers
(part_005, both revisions, and the enhanced route, which share it verbatim):
amount must be a positive number, both credentials nonempty strings after
trimming, and both resolved URLs must parse; only then does control reach the
SDK construction and the network call. `urlOk` stands for success of the
WHATWG `new URL(...)` constructor the route calls. -/
def initiateCheck (amount clientId secretKey : JsVal) (env : Env)
    (urlOk : String → Bool) : InitiateOutcome :=
  match amount with
  | .num q =>
    if q ≤ 0 then .error 400 "Invalid amount provided."
    else if ¬credValid clientId then .error 400 "Client ID is required."
    else if ¬credValid secretKey then .error 400 "Secret Key is required."
    else
      let callbackUrl := resolvedCallbackUrl env
      let backUrl := resolvedBackUrl env
      if ¬urlOk callbackUrl then
        .error 500 "Server configuration error: Invalid callback URL format."
      else if backUrl ≠ "" ∧ ¬urlOk backUrl then
        .error 500 "Server configuration error: Invalid back URL format."
      else
        match clientId, secretKey with
        | .str cid, .str sk => .proceed cid sk q callbackUrl backUrl
        | _, _ => .error 400 "Client ID is required."
  | _ => .error 400 "Invalid amount provided."

/-- Response of the initiate-payment route after the network phase. -/
inductive InitiateResponse where
  | failure (status : Nat) (msg : String)
  | success (paymentUrl transactionId : JsVal)

/-- Embedding of the tail of the paragoniu direct-call block of the
initiate-payment route: a non-2xx fetch response or missing
`payment_url`/`transaction_id` fields raise and surface as a 500, and
otherwise the route answers with the pair. `Response.ok` is 2xx by the fetch
standard. -/
def initiateDirectFinish (status : Nat) (responseData : JsVal) : InitiateResponse :=
  if ¬(200 ≤ status ∧ status < 300) then .failure 500 "Failed to initiate payment."
  else
    let pu := responseData.get "payment_url"
    let tid := responseData.get "transaction_id"
    if ¬pu.truthy ∨ ¬tid.truthy then .failure 500 "Failed to initiate payment."
    else .success pu tid

/-- Outcome of the pre-network phase of the validate-transaction route. -/
inductive StatusOutcome where
  | error (status : Nat) (msg : String)
  | proceed (transactionId clientId secretKey : String)
deriving DecidableEq

/-- Embedding of the validation phase of the validate-transaction route
handlers (both revisions and the enhanced route):
`!transactionId || typeof transactionId !== "string"` rejects everything but
a nonempty string, then the credentials are checked, and only a fully
validated request reaches the SDK construction and the network call. -/
def validateTransactionCheck (transactionId clientId secretKey : JsVal) : StatusOutcome :=
  match transactionId with
  | .str tid =>
    if tid = "" then .error 400 "Invalid or missing transaction ID."
    else if ¬credValid clientId then .error 400 "Client ID is required."
    else if ¬credValid secretKey then .error 400 "Secret Key is required."
    else
      match clientId, secretKey with
      | .str cid, .str sk => .proceed tid cid sk
      | _, _ => .error 400 "Client ID is required."
  | _ => .error 400 "Invalid or missing transaction ID."

/-- Response of the validate-transaction route after the network phase. -/
inductive StatusResponse where
  | failure (status : Nat) (msg : String) (details : String)
  | success (record : JsVal)

/-- The message of the error raised for a non-2xx, non-404 status response:
`"API request failed: " + (errorData.error || errorData.message ||
"Request failed with status code N")`. -/
def statusErrMsg (errorData : JsVal) (status : Nat) : String :=
  "API request failed: " ++
    jsDisplay (jsOr (errorData.get "error")
      (jsOr (errorData.get "message")
        (.str ("Request failed with status code " ++ Nat.repr status))))

/-- Embedding of the tail of the paragoniu direct-call block of the
validate-transaction route: a 404 answers "Transaction not found" directly;
any other non-2xx raises, and the catch blocks map a message containing
"not found" to a 404 and everything else to a 500; an empty parsed record
raises the same way; a truthy record is returned whole. -/
def statusDirectFinish (status : Nat) (errorData statusResult : JsVal) : StatusResponse :=
  if ¬(200 ≤ status ∧ status < 300) then
    if status = 404 then
      .failure 404 "Transaction not found"
        (jsDisplay (jsOr (errorData.get "error")
          (jsOr (errorData.get "message") (.str "Transaction not found"))))
    else
      let msg := statusErrMsg errorData status
      if strContains msg "not found" then .failure 404 "Transaction not found" msg
      else .failure 500 "Failed to validate transaction." msg
  else if ¬statusResult.truthy then
    .failure 500 "Failed to validate transaction."
      "Failed to get transaction status details from API."
  else .success statusResult

/-! ## SDK construction -/

/-- The credential arguments every SDK construction site passes:
`clientId: clientId.trim(), secretKey: secretKey.trim()` (part_005 both
revisions, both enhanced routes, validate-transaction, and
utils/sdk-config.js). -/
def sdkCredArgs (clientId secretKey : String) : String × String :=
  (jsTrim clientId, jsTrim secretKey)

/-- The constructor arguments `createSDK` assembles. -/
structure SdkArgs where
  clientId : String
  secretKey : String
  baseUrl : String
deriving DecidableEq

/-- Embedding of `createSDK(options)` from utils/sdk-config.js: a missing or
empty credential throws `"Client ID and Secret Key are required"` before any
SDK exists; otherwise the SDK is built on the trimmed credentials. The
`baseUrl` destructuring default applies only when the option is absent. -/
def createSDK (clientId secretKey : String) (baseUrlOpt : Option String)
    (envBaseUrl : Option String) : Except String SdkArgs :=
  if clientId = "" ∨ secretKey = "" then .error "Client ID and Secret Key are required"
  else
    .ok { clientId := jsTrim clientId
          secretKey := jsTrim secretKey
          baseUrl :=
            match baseUrlOpt with
            | some b => b
            | none => envOr envBaseUrl "https://api-testluy.paragoniu.app" }

/-! ## The retry pipeline -/

/-- Modelled from the spec: the classified error kinds of the request pipeline
(section 3, Classified Error). The pipeline itself lives in the external
`testluy-payment-sdk` package, which is not part of this repository; only its
configuration appears under src/. -/
inductive ErrorKind where
  | rateLimited
  | protectionChallenge
  | notFound
  | transient
  | fatal
deriving DecidableEq

/-- Modelled from the spec (section 4.3): RateLimited and Transient are the
retryable kinds; NotFound, Fatal and ProtectionChallenge are not retried. -/
def retryable : ErrorKind → Bool
  | .rateLimited => true
  | .transient => true
  | _ => false

/-- Modelled from the spec (sections 4.3 and 4.5): the attempt loop of the
request pipeline. `budget` is the number of retries still allowed
(`maxRetries - idx`), `idx` the 0-based attempt index; the pair returned is
the surfaced result and the total number of attempts performed. A failed
attempt is retried exactly when retries remain and the kind is retryable. -/
def pipelineGo (transport : Nat → Except ErrorKind α) :
    Nat → Nat → Except ErrorKind α × Nat
  | 0, idx => (transport idx, idx + 1)
  | budget + 1, idx =>
    match transport idx with
    | .ok a => (.ok a, idx + 1)
    | .error k => if retryable k then pipelineGo transport budget (idx + 1) else (.error k, idx + 1)

/-- Modelled from the spec: one logical pipeline call with the given
`maxRetries`, starting at attempt 0. -/
def pipelineRun (maxRetries : Nat) (transport : Nat → Except ErrorKind α) :
    Except ErrorKind α × Nat :=
  pipelineGo transport maxRetries 0

/-- When every attempt fails with a retryable kind, the loop spends its whole
budget and counts one attempt per budget unit plus the final one. -/
theorem pipelineGo_all_transient {α : Type} (transport : Nat → Except ErrorKind α)
    (h : ∀ i, transport i = .error .transient) :
    ∀ budget idx, pipelineGo transport budget idx = (.error .transient, idx + budget + 1) := by
  intro budget
  induction budget with
  | zero => intro idx; simp [pipelineGo, h idx]
  | succ n ih =>
    intro idx
    simp only [pipelineGo, h idx, retryable, if_true]
    rw [ih (idx + 1)]
    congr 1
    omega

/-! ## Claim theorems -/

/-- C1: for every method, path, timestamp, body and non-empty secret, the
request signature is the lowercase hex HMAC-SHA-256 digest, keyed with the
secret, of exactly `METHOD \n PATH \n TIMESTAMP \n BODY`, where BODY is the
JSON serialization of a structured body and the given text of a string body;
the output is 64 characters, two zero-padded lowercase hex digits per digest
byte. The same holds of the direct-call block of the initiate-payment route,
keyed with the trimmed secret. -/
theorem c1_signature_definition (method path timestamp bodyStr secret : String)
    (hsec : secret ≠ "") :
    generateSignature method path timestamp (.str bodyStr) secret
      = toHex (hmacSha256 (utf8 secret)
          (utf8 (method ++ "\n" ++ path ++ "\n" ++ timestamp ++ "\n" ++ bodyStr)))
    ∧ (∀ fields, generateSignature method path timestamp (.obj fields) secret
      = toHex (hmacSha256 (utf8 secret)
          (utf8 (method ++ "\n" ++ path ++ "\n" ++ timestamp ++ "\n" ++ stringify (.obj fields)))))
    ∧ (generateSignature method path timestamp (.str bodyStr) secret).length = 64
    ∧ (∀ c ∈ (generateSignature method path timestamp (.str bodyStr) secret).data,
        isLowerHexDigit c = true)
    ∧ (∀ nowMs amount cb bu base,
        (paragoniuInitiateRequest method secret nowMs amount cb bu base).headers.xSignature
          = toHex (hmacSha256 (utf8 (jsTrim secret))
              (utf8 ("POST" ++ "\n" ++ "payment-simulator/generate-url" ++ "\n"
                ++ Nat.repr (nowMs / 1000) ++ "\n" ++ stringify (initiateBodyObj amount cb bu))))) := by
  refine ⟨rfl, fun _ => rfl, ?_, ?_, fun _ _ _ _ _ => rfl⟩
  · simp [generateSignature, toHex_length, hmacSha256_length]
  · exact fun c hc => toHex_isLowerHex _ (hmacSha256_bytes_lt _ _) c hc

/-- C1 witness at a concrete input. -/
theorem c1_signature_definition_witness :
    ("sk" : String) ≠ ""
    ∧ (generateSignature "POST" "api/validate-credentials" "1700000000"
        (.str "") "sk").length = 64 :=
  ⟨by decide, (c1_signature_definition "POST" "api/validate-credentials" "1700000000" "" "sk"
    (by decide)).2.2.1⟩

/-- C2: a pipeline whose every attempt fails with a Transient error performs
exactly `maxRetries + 1` attempts and surfaces the Transient failure; with
`maxRetries = 0` exactly one attempt is performed whatever the outcome. -/
theorem c2_retry_exhaustion :
    (∀ (α : Type) (n : Nat) (transport : Nat → Except ErrorKind α),
      (∀ i, transport i = .error .transient) →
      pipelineRun n transport = (.error .transient, n + 1))
    ∧ (∀ (α : Type) (transport : Nat → Except ErrorKind α), (pipelineRun 0 transport).2 = 1) := by
  constructor
  · intro α n transport h
    rw [pipelineRun, pipelineGo_all_transient transport h n 0]
    congr 1
    omega
  · intro α transport
    rfl

/-- C2 witness: three attempts for two allowed retries. -/
theorem c2_retry_exhaustion_witness :
    pipelineRun 2 (fun _ => (.error .transient : Except ErrorKind Unit))
      = (.error .transient, 3) :=
  c2_retry_exhaustion.1 Unit 2 _ (fun _ => rfl)

/-- C4: the BODY component of the string to sign is the body transmitted: in
the initiate-payment direct call one `JSON.stringify` result is interpolated
into the string to sign and sent as the fetch body; in `makeApiRequest` a
POST signs and sends the same serialized text; the GET status call signs the
empty string and sends no body. -/
theorem c4_signed_body_is_sent_body :
    (∀ cid sk nowMs amount cb bu base,
      (paragoniuInitiateRequest cid sk nowMs amount cb bu base).stringToSign
        = "POST" ++ "\n" ++ (paragoniuInitiateRequest cid sk nowMs amount cb bu base).path
          ++ "\n" ++ (paragoniuInitiateRequest cid sk nowMs amount cb bu base).timestamp
          ++ "\n" ++ (paragoniuInitiateRequest cid sk nowMs amount cb bu base).bodyString
      ∧ (paragoniuInitiateRequest cid sk nowMs amount cb bu base).sentBody
        = some (paragoniuInitiateRequest cid sk nowMs amount cb bu base).bodyString
      ∧ (paragoniuInitiateRequest cid sk nowMs amount cb bu base).bodyString
        = stringify (initiateBodyObj amount cb bu))
    ∧ (∀ cid sk base nowMs path body,
      (makeApiRequest cid sk base nowMs path "POST" body).body = some (bodyText body)
      ∧ (makeApiRequest cid sk base nowMs path "POST" body).headers.xSignature
        = toHex (hmacSha256 (utf8 sk)
            (utf8 ("POST" ++ "\n" ++ path ++ "\n" ++ Nat.repr (nowMs / 1000)
              ++ "\n" ++ bodyText body))))
    ∧ (∀ cid sk tid nowMs base,
      (paragoniuStatusRequest cid sk tid nowMs base).stringToSign
        = "GET" ++ "\n" ++ (paragoniuStatusRequest cid sk tid nowMs base).path
          ++ "\n" ++ (paragoniuStatusRequest cid sk tid nowMs base).timestamp ++ "\n" ++ ""
      ∧ (paragoniuStatusRequest cid sk tid nowMs base).sentBody = none) :=
  ⟨fun _ _ _ _ _ _ _ => ⟨rfl, rfl, rfl⟩,
   fun _ _ _ _ _ _ => ⟨rfl, rfl⟩,
   fun _ _ _ _ _ => ⟨rfl, rfl⟩⟩

/-- C5: the signer is deterministic — a pure function of its five inputs — and
on the tested input battery changing any single one of the five inputs
changes the signature. -/
theorem c5_determinism_and_sensitivity :
    (∀ method path timestamp (body : JsVal) secret,
      generateSignature method path timestamp body secret
        = generateSignature method path timestamp body secret)
    ∧ generateSignature "POST" "api/validate-credentials" "1700000000" (.str "") "secret-a"
        ≠ generateSignature "GET" "api/validate-credentials" "1700000000" (.str "") "secret-a"
    ∧ generateSignature "POST" "api/validate-credentials" "1700000000" (.str "") "secret-a"
        ≠ generateSignature "POST" "api/payments" "1700000000" (.str "") "secret-a"
    ∧ generateSignature "POST" "api/validate-credentials" "1700000000" (.str "") "secret-a"
        ≠ generateSignature "POST" "api/validate-credentials" "1700000001" (.str "") "secret-a"
    ∧ generateSignature "POST" "api/validate-credentials" "1700000000" (.str "") "secret-a"
        ≠ generateSignature "POST" "api/validate-credentials" "1700000000" (.str "x") "secret-a"
    ∧ generateSignature "POST" "api/validate-credentials" "1700000000" (.str "") "secret-a"
        ≠ generateSignature "POST" "api/validate-credentials" "1700000000" (.str "") "secret-b" :=
  ⟨fun _ _ _ _ _ => rfl, by decide, by decide, by decide, by decide, by decide⟩

/-- C5 witness: determinism at a concrete input. -/
theorem c5_determinism_and_sensitivity_witness :
    generateSignature "POST" "api/validate-credentials" "1700000000" (.str "") "secret-a"
      = generateSignature "POST" "api/validate-credentials" "1700000000" (.str "") "secret-a" :=
  c5_determinism_and_sensitivity.1 "POST" "api/validate-credentials" "1700000000"
    (.str "") "secret-a"

/-- C3: the initiate-payment route rejects a non-positive or non-numeric
amount with a 400, rejects an unparseable callback or back URL with a 500,
reaches the SDK/network phase only with every validation passed, and on a
successful network response answers with the `paymentUrl`/`transactionId`
pair. -/
theorem c3_initiate_validation :
    (∀ (amount clientId secretKey : JsVal) (env : Env) (urlOk : String → Bool),
      (∀ q : Rat, amount = .num q → q ≤ 0) →
      initiateCheck amount clientId secretKey env urlOk
        = .error 400 "Invalid amount provided.")
    ∧ (∀ (clientId secretKey : JsVal) (env : Env) (urlOk : String → Bool) (q : Rat),
      0 < q → credValid clientId = true → credValid secretKey = true →
      urlOk (resolvedCallbackUrl env) = false →
      initiateCheck (.num q) clientId secretKey env urlOk
        = .error 500 "Server configuration error: Invalid callback URL format.")
    ∧ (∀ (clientId secretKey : JsVal) (env : Env) (urlOk : String → Bool) (q : Rat),
      0 < q → credValid clientId = true → credValid secretKey = true →
      urlOk (resolvedCallbackUrl env) = true →
      resolvedBackUrl env ≠ "" → urlOk (resolvedBackUrl env) = false →
      initiateCheck (.num q) clientId secretKey env urlOk
        = .error 500 "Server configuration error: Invalid back URL format.")
    ∧ (∀ (amount clientId secretKey : JsVal) (env : Env) (urlOk : String → Bool)
        (c s : String) (q : Rat) (cb bu : String),
      initiateCheck amount clientId secretKey env urlOk = .proceed c s q cb bu →
      amount = .num q ∧ 0 < q ∧ clientId = .str c ∧ secretKey = .str s
        ∧ jsTrim c ≠ "" ∧ jsTrim s ≠ ""
        ∧ cb = resolvedCallbackUrl env ∧ bu = resolvedBackUrl env
        ∧ urlOk cb = true ∧ (bu ≠ "" → urlOk bu = true))
    ∧ (∀ (status : Nat) (data pu tid : JsVal),
      initiateDirectFinish status data = .success pu tid →
      200 ≤ status ∧ status < 300
        ∧ pu = data.get "payment_url" ∧ tid = data.get "transaction_id"
        ∧ pu.truthy = true ∧ tid.truthy = true) := by
  refine ⟨?_, ?_, ?_, ?_, ?_⟩
  · intro amount cid sk env urlOk h
    cases amount with
    | num q => simp only [initiateCheck]; rw [if_pos (h q rfl)]
    | undefVal => rfl
    | null => rfl
    | bool b => rfl
    | str s => rfl
    | obj fs => rfl
  · intro cid sk env urlOk q hq hc hs hurl
    simp only [initiateCheck]
    rw [if_neg (not_le.mpr hq), if_neg (not_not_intro hc), if_neg (not_not_intro hs),
      if_pos (by simp [hurl])]
  · intro cid sk env urlOk q hq hc hs hcb hne hbu
    simp only [initiateCheck]
    rw [if_neg (not_le.mpr hq), if_neg (not_not_intro hc), if_neg (not_not_intro hs),
      if_neg (not_not_intro hcb), if_pos ⟨hne, by simp [hbu]⟩]
  · intro amount cid sk env urlOk c s q cb bu h
    cases amount with
    | num q0 =>
      simp only [initiateCheck] at h
      split_ifs at h with h1 h2 h3 h4 h5 <;> try simp at h
      rcases cid with _ | _ | b | qq | c0 | fs <;> rcases sk with _ | _ | b2 | q2 | s0 | fs2 <;>
        simp at h
      obtain ⟨e1, e2, e3, e4, e5⟩ := h
      subst e1; subst e2; subst e3; subst e4; subst e5
      refine ⟨rfl, not_le.mp h1, rfl, rfl, ?_, ?_, rfl, rfl, h4, ?_⟩
      · simpa [credValid] using h2
      · simpa [credValid] using h3
      · intro hne
        by_contra hno
        exact h5 ⟨hne, fun hh => hno hh⟩
    | undefVal => simp [initiateCheck] at h
    | null => simp [initiateCheck] at h
    | bool b => simp [initiateCheck] at h
    | str t => simp [initiateCheck] at h
    | obj fs => simp [initiateCheck] at h
  · intro status data pu tid h
    simp only [initiateDirectFinish] at h
    split_ifs at h with h1 h2 <;> try simp at h
    have hs := h1
    push_neg at h2
    obtain ⟨hp, ht⟩ := h
    subst hp; subst ht
    exact ⟨hs.1, hs.2, rfl, rfl, h2.1, h2.2⟩

/-- C3 witness: a negative amount is rejected with a 400 before the SDK is
constructed. -/
theorem c3_initiate_validation_witness :
    initiateCheck (.num (-5)) (.str "id") (.str "key") ⟨none, none, none⟩ (fun _ => true)
      = .error 400 "Invalid amount provided." :=
  c3_initiate_validation.1 (.num (-5)) (.str "id") (.str "key") ⟨none, none, none⟩
    (fun _ => true) (fun q hq => by injection hq with h; rw [← h]; norm_num)

/-- C6 counterexample: with the `retry-after` header present but empty and a
body field `retry_after` of `"5"`, the code takes the body value, not the
header value the claim prescribes. -/
theorem c6_counterexample :
    (rateLimitInfoOfError ⟨some "120", some "0", some "1700000300", some ""⟩
        (.obj [("retry_after", .str "5")])).retryAfter = .str "5"
    ∧ JsVal.str "5" ≠ JsVal.str "" :=
  ⟨rfl, fun h => by injection h with hs; exact absurd hs (by decide)⟩

/-- C6 (amended): on a 429 response the rate-limit description copies
limit/remaining/reset from the `x-ratelimit-*` headers, and takes
`retryAfter` from the `retry-after` header when it is present and non-empty,
falling back to the body field `retry_after` otherwise. -/
theorem c6_rate_limit_info (status : Nat) (h : RespHeaders) (data : JsVal)
    (h429 : status = 429) :
    (rateLimitInfoOfError h data).limit = h.limit
    ∧ (rateLimitInfoOfError h data).remaining = h.remaining
    ∧ (rateLimitInfoOfError h data).reset = h.reset
    ∧ (∀ s, h.retryAfter = some s → s ≠ "" →
        (rateLimitInfoOfError h data).retryAfter = .str s)
    ∧ (h.retryAfter = none → data.truthy = true →
        (rateLimitInfoOfError h data).retryAfter = data.get "retry_after")
    ∧ (∀ s, h.retryAfter = some s → s = "" → data.truthy = true →
        (rateLimitInfoOfError h data).retryAfter = data.get "retry_after") := by
  refine ⟨rfl, rfl, rfl, ?_, ?_, ?_⟩
  · intro s hs hne
    simp [rateLimitInfoOfError, jsOr, headerVal, hs, JsVal.truthy, hne]
  · intro hnone hdata
    simp only [rateLimitInfoOfError, jsOr, jsAnd, headerVal, hnone]
    rw [if_neg (by simp [JsVal.truthy]), if_pos hdata]
  · intro s hs hse hdata
    subst hse
    simp only [rateLimitInfoOfError, jsOr, jsAnd, headerVal, hs]
    rw [if_neg (by simp [JsVal.truthy]), if_pos hdata]

/-- C6 witness: a non-empty `retry-after` header is surfaced as given. -/
theorem c6_rate_limit_info_witness :
    (rateLimitInfoOfError ⟨some "120", some "5", some "1700000300", some "3"⟩
        (.obj [])).retryAfter = .str "3" :=
  (c6_rate_limit_info 429 ⟨some "120", some "5", some "1700000300", some "3"⟩
    (.obj []) rfl).2.2.2.1 "3" rfl (by decide)

/-- C7: the validate-transaction route rejects anything but a nonempty string
transaction id with a 400 before the network phase; a 404 status response,
and any raised error whose message contains "not found", surface as a 404
"Transaction not found"; a 2xx response with a truthy parsed record is
returned whole. -/
theorem c7_status_validation :
    (∀ (transactionId clientId secretKey : JsVal),
      (∀ s, transactionId = .str s → s = "") →
      validateTransactionCheck transactionId clientId secretKey
        = .error 400 "Invalid or missing transaction ID.")
    ∧ (∀ (transactionId clientId secretKey : JsVal) (t c s : String),
      validateTransactionCheck transactionId clientId secretKey = .proceed t c s →
      transactionId = .str t ∧ t ≠ "")
    ∧ (∀ (errorData statusResult : JsVal),
      statusDirectFinish 404 errorData statusResult
        = .failure 404 "Transaction not found"
            (jsDisplay (jsOr (errorData.get "error")
              (jsOr (errorData.get "message") (.str "Transaction not found")))))
    ∧ (∀ (status : Nat) (errorData statusResult : JsVal),
      ¬(200 ≤ status ∧ status < 300) → status ≠ 404 →
      strContains (statusErrMsg errorData status) "not found" = true →
      statusDirectFinish status errorData statusResult
        = .failure 404 "Transaction not found" (statusErrMsg errorData status))
    ∧ (∀ (status : Nat) (errorData statusResult : JsVal),
      200 ≤ status → status < 300 → statusResult.truthy = true →
      statusDirectFinish status errorData statusResult = .success statusResult) := by
  refine ⟨?_, ?_, ?_, ?_, ?_⟩
  · intro tid cid sk h
    cases tid with
    | str s => simp only [validateTransactionCheck]; rw [if_pos (h s rfl)]
    | undefVal => rfl
    | null => rfl
    | bool b => rfl
    | num q => rfl
    | obj fs => rfl
  · intro tid cid sk t c s h
    cases tid with
    | str t0 =>
      simp only [validateTransactionCheck] at h
      split_ifs at h with h1 h2 h3 <;> try simp at h
      rcases cid with _ | _ | b | qq | c0 | fs <;> rcases sk with _ | _ | b2 | q2 | s0 | fs2 <;>
        simp at h
      obtain ⟨e1, e2, e3⟩ := h
      subst e1
      exact ⟨rfl, h1⟩
    | undefVal => simp [validateTransactionCheck] at h
    | null => simp [validateTransactionCheck] at h
    | bool b => simp [validateTransactionCheck] at h
    | num q => simp [validateTransactionCheck] at h
    | obj fs => simp [validateTransactionCheck] at h
  · intro errorData statusResult
    rfl
  · intro status errorData statusResult h1 h404 hmsg
    simp only [statusDirectFinish]
    rw [if_pos h1, if_neg h404, if_pos hmsg]
  · intro status errorData statusResult hlo hhi htr
    simp only [statusDirectFinish]
    rw [if_neg (not_not_intro ⟨hlo, hhi⟩), if_neg (not_not_intro htr)]

/-- C7 witness: a numeric transaction id is rejected with a 400. -/
theorem c7_status_validation_witness :
    validateTransactionCheck (.num 5) (.str "id") (.str "key")
      = .error 400 "Invalid or missing transaction ID." :=
  c7_status_validation.1 (.num 5) (.str "id") (.str "key") (fun s hs => by cases hs)

/-- C8: every outbound request of the harness carries `X-Client-ID`, a
whole-second decimal `X-Timestamp` derived from the send-time clock, the hex
`X-Signature` over that same timestamp, and the two JSON media-type headers;
the body is the serialized JSON for POST and absent for GET, and the direct
GET status call of the validate-transaction route carries the same five
headers and no body. -/
theorem c8_request_headers (cid sk base : String) (nowMs : Nat) (path method : String)
    (body : JsVal) (tid : String) :
    (makeApiRequest cid sk base nowMs path method body).headers.xClientId = cid
    ∧ (makeApiRequest cid sk base nowMs path method body).headers.xTimestamp
        = Nat.repr (nowMs / 1000)
    ∧ (makeApiRequest cid sk base nowMs path method body).headers.xSignature
        = generateSignature method path (Nat.repr (nowMs / 1000)) body sk
    ∧ ((makeApiRequest cid sk base nowMs path method body).headers.xSignature).length = 64
    ∧ (∀ c ∈ (makeApiRequest cid sk base nowMs path method body).headers.xSignature.data,
        isLowerHexDigit c = true)
    ∧ (makeApiRequest cid sk base nowMs path method body).headers.contentType
        = "application/json"
    ∧ (makeApiRequest cid sk base nowMs path method body).headers.accept = "application/json"
    ∧ (method = "POST" →
        (makeApiRequest cid sk base nowMs path method body).body = some (axiosBody body))
    ∧ (method = "GET" → (makeApiRequest cid sk base nowMs path method body).body = none)
    ∧ (paragoniuStatusRequest cid sk tid nowMs base).headers.xClientId = jsTrim cid
    ∧ (paragoniuStatusRequest cid sk tid nowMs base).headers.xTimestamp
        = Nat.repr (nowMs / 1000)
    ∧ (paragoniuStatusRequest cid sk tid nowMs base).headers.contentType = "application/json"
    ∧ (paragoniuStatusRequest cid sk tid nowMs base).headers.accept = "application/json"
    ∧ (paragoniuStatusRequest cid sk tid nowMs base).sentBody = none
    ∧ ((paragoniuStatusRequest cid sk tid nowMs base).headers.xSignature).length = 64 := by
  refine ⟨rfl, rfl, rfl, ?_, ?_, rfl, rfl, ?_, ?_, rfl, rfl, rfl, rfl, rfl, ?_⟩
  · simp [makeApiRequest, generateSignature, toHex_length, hmacSha256_length]
  · exact fun c hc => toHex_isLowerHex _ (hmacSha256_bytes_lt _ _) c hc
  · intro h; subst h; simp [makeApiRequest]
  · intro h; subst h; simp [makeApiRequest]
  · simp [paragoniuStatusRequest, toHex_length, hmacSha256_length]

/-- C8 witness: a GET request carries no body. -/
theorem c8_request_headers_witness :
    (makeApiRequest "cid" "sk" "http://b" 1700000123456 "api/validate-credentials" "GET"
      (.obj [])).body = none :=
  (c8_request_headers "cid" "sk" "http://b" 1700000123456 "api/validate-credentials" "GET"
    (.obj []) "t").2.2.2.2.2.2.2.2.1 rfl

/-- C9 counterexample: the signer itself accepts an empty secret and produces
a well-formed 64-character lowercase hex signature instead of failing. -/
theorem c9_counterexample :
    (generateSignature "POST" "api/validate-credentials" "1700000000" (.obj []) "").length = 64
    ∧ (∀ c ∈ (generateSignature "POST" "api/validate-credentials" "1700000000"
        (.obj []) "").data, isLowerHexDigit c = true) := by
  constructor
  · simp [generateSignature, toHex_length, hmacSha256_length]
  · exact fun c hc => toHex_isLowerHex _ (hmacSha256_bytes_lt _ _) c hc

/-- C9 (amended): the signer is pure and total — it signs any input, an empty
secret included — and the empty-secret rejection lives in its callers:
`createSDK` throws its configuration error and the route validation answers
400 before any signing happens. -/
theorem c9_empty_secret_guard :
    (∀ (method path timestamp : String) (body : JsVal) (secret : String),
      (generateSignature method path timestamp body secret).length = 64)
    ∧ (∀ (clientId : String) (baseUrlOpt envBaseUrl : Option String),
      createSDK clientId "" baseUrlOpt envBaseUrl
        = .error "Client ID and Secret Key are required")
    ∧ (∀ (q : Rat) (clientId : JsVal) (sk0 : String) (env : Env) (urlOk : String → Bool),
      0 < q → credValid clientId = true → jsTrim sk0 = "" →
      initiateCheck (.num q) clientId (.str sk0) env urlOk
        = .error 400 "Secret Key is required.") := by
  refine ⟨?_, ?_, ?_⟩
  · intro method path timestamp body secret
    simp [generateSignature, toHex_length, hmacSha256_length]
  · intro clientId baseUrlOpt envBaseUrl
    simp [createSDK]
  · intro q clientId sk0 env urlOk hq hc hsk
    simp only [initiateCheck]
    rw [if_neg (not_le.mpr hq), if_neg (not_not_intro hc),
      if_pos (by simp [credValid, hsk])]

/-- C9 witness: a whitespace-only secret is rejected by the route validation
with a 400. -/
theorem c9_empty_secret_guard_witness :
    initiateCheck (.num 10) (.str "id") (.str "   ") ⟨none, none, none⟩ (fun _ => true)
      = .error 400 "Secret Key is required." :=
  c9_empty_secret_guard.2.2 10 (.str "id") "   " ⟨none, none, none⟩ (fun _ => true)
    (by norm_num) (by decide) (by decide)

/-- C10: the request constructions and SDK constructor calls of the route
handlers use the credentials only through `.trim()`, so credentials that
agree after trimming yield identical outbound requests and identical SDK
arguments. -/
theorem c10_credential_trimming (cid1 cid2 sk1 sk2 : String)
    (hc : jsTrim cid1 = jsTrim cid2) (hs : jsTrim sk1 = jsTrim sk2) :
    (∀ (nowMs : Nat) (amount : Rat) (cb bu base : String),
      paragoniuInitiateRequest cid1 sk1 nowMs amount cb bu base
        = paragoniuInitiateRequest cid2 sk2 nowMs amount cb bu base)
    ∧ (∀ (tid : String) (nowMs : Nat) (base : String),
      paragoniuStatusRequest cid1 sk1 tid nowMs base
        = paragoniuStatusRequest cid2 sk2 tid nowMs base)
    ∧ sdkCredArgs cid1 sk1 = sdkCredArgs cid2 sk2 := by
  refine ⟨fun nowMs amount cb bu base => ?_, fun tid nowMs base => ?_, ?_⟩ <;>
    simp [paragoniuInitiateRequest, paragoniuStatusRequest, sdkCredArgs, hc, hs]

/-- C10 witness: surrounding whitespace on the credentials leaves the
outbound initiate-payment request unchanged. -/
theorem c10_credential_trimming_witness :
    jsTrim " abc " = jsTrim "abc" ∧ jsTrim " k" = jsTrim "k"
    ∧ paragoniuInitiateRequest " abc " " k" 1700000000000 10 "http://cb" "http://back"
        "https://api-testluy.paragoniu.app"
      = paragoniuInitiateRequest "abc" "k" 1700000000000 10 "http://cb" "http://back"
        "https://api-testluy.paragoniu.app" :=
  ⟨by decide, by decide,
   (c10_credential_trimming " abc " "abc" " k" "k" (by decide) (by decide)).1 1700000000000 10
     "http://cb" "http://back" "https://api-testluy.paragoniu.app"⟩

end Testluy
